import Mathlib

/-!
Verification of the enterprise-certificate-proxy client and signer code.

The Go sources are embedded shallowly: straight-line effectful code becomes a
pure function over the outcomes of its individual effects (file opens, RPC
calls, process kills), machine byte slices become lists of naturals, and Go
errors become an explicit inductive error type so that sentinel matching via
errors.Is can be stated.  Every definition is translated from a concrete
function of the repository; the handful of definitions that stand for code
whose file is missing from the source snapshot carry a doc comment beginning
with the words Modelled from the spec.
-/

namespace ECP

/-- A Go error value, abstracted.  The constructor configUnavailable stands for
the sentinel util.ErrConfigUnavailable; parseErr stands for an error returned
by json.Unmarshal; msg is any other error identified by its message text; and
wrap models fmt.Errorf with a %w verb, keeping the wrapped error reachable for
errors.Is. -/
inductive GoErr where
  | configUnavailable : GoErr
  | parseErr (m : String) : GoErr
  | msg (m : String) : GoErr
  | wrap (pre : String) (inner : GoErr) : GoErr
deriving DecidableEq

/-- errors.Is for the GoErr embedding: the target matches the error itself or
any error reachable through wrap. -/
def goErrorsIs : GoErr → GoErr → Bool
  | GoErr.wrap p inner, t => decide (GoErr.wrap p inner = t) || goErrorsIs inner t
  | e, t => decide (e = t)

/-- The two underlying streams of a client Transport (or signer Connection). -/
inductive CloseSide where
  | readSide : CloseSide
  | writeSide : CloseSide
deriving DecidableEq

/-- Transport.Close from src/unnamed/part_000 (identical to Connection.Close in
src/internal/signer/linux/signer.go): both underlying closers are invoked
unconditionally, then the read-side error is returned when present, otherwise
the write-side error.  The first component records which closers ran; rerr and
werr are the outcomes of the two Close calls. -/
def transportClose (rerr werr : Option GoErr) : List CloseSide × Option GoErr :=
  ([CloseSide.readSide, CloseSide.writeSide],
    match rerr with
    | some e => some e
    | none => werr)

/-- The three cleanup steps of client Key.Close. -/
inductive CloseStep where
  | connClose : CloseStep
  | procKill : CloseStep
  | procWait : CloseStep
deriving DecidableEq

/-- Outcomes of the three effects performed by Key.Close: closing the RPC
client, killing the subprocess, waiting for it. -/
structure CloseEnv where
  clientCloseErr : Option GoErr
  processKillErr : Option GoErr
  cmdWaitErr : Option GoErr
deriving DecidableEq

/-- Key.Close from src/unnamed/part_000 lines 64-73: close the RPC connection,
returning a wrapped error immediately on failure; then kill the signer
process, returning a wrapped error immediately on failure; then return the
wait result.  The first component records which steps were reached. -/
def keyClose (env : CloseEnv) : List CloseStep × Option GoErr :=
  match env.clientCloseErr with
  | some e =>
    ([CloseStep.connClose], some (GoErr.wrap "Closing RPC connection" e))
  | none =>
    match env.processKillErr with
    | some e =>
      ([CloseStep.connClose, CloseStep.procKill],
        some (GoErr.wrap "Killing signer process" e))
    | none =>
      ([CloseStep.connClose, CloseStep.procKill, CloseStep.procWait],
        env.cmdWaitErr)

/-- Result of json.Unmarshal on the config file bytes, abstracted: either the
unmarshal error, or the parsed EnterpriseCertificateConfig reduced to its one
field of interest, config.Libs.ECP (a JSON document with the field absent
unmarshals to the empty string). -/
inductive JsonContent where
  | malformed (m : String) : JsonContent
  | parsed (ecp : String) : JsonContent
deriving DecidableEq

/-- Outcome of io.ReadAll on the opened config file. -/
inductive ReadOutcome where
  | readErr (m : String) : ReadOutcome
  | bytes (c : JsonContent) : ReadOutcome
deriving DecidableEq

/-- Outcome of os.Open on the config path: an error satisfying
errors.Is(err, os.ErrNotExist), some other open error, or success. -/
inductive OpenOutcome where
  | errNotExist : OpenOutcome
  | errOther (m : String) : OpenOutcome
  | opened (r : ReadOutcome) : OpenOutcome
deriving DecidableEq

/-- strings.Contains for a non-empty substring: s contains sub exactly when
splitting s on sub yields at least two pieces. -/
def goStringsContains (s sub : String) : Bool :=
  decide (2 ≤ (s.splitOn sub).length)

/-- strings.TrimLeft: drop the longest leading run of characters belonging to
the cutset. -/
def goTrimLeft (s : String) (cutset : List Char) : String :=
  String.mk (s.toList.dropWhile (fun c => cutset.contains c))

/-- LoadSignerBinaryPath from src/unnamed/part_002 lines 46-84 (the updated
function).  The os.Open, io.ReadAll and json.Unmarshal effects are supplied as
the openRes argument, and the os.UserHomeDir outcome as userHomeDir (none
meaning the call failed).  A not-exist open error and an empty ECP field map
to the sentinel; read and unmarshal errors are returned as-is; a path
mentioning a tilde or HOME is rewritten against the home directory, the second
containment test running on the already-rewritten path exactly as in the
source. -/
def LoadSignerBinaryPath (openRes : OpenOutcome) (userHomeDir : Option String) :
    Except GoErr String :=
  match openRes with
  | OpenOutcome.errNotExist => Except.error GoErr.configUnavailable
  | OpenOutcome.errOther m => Except.error (GoErr.msg m)
  | OpenOutcome.opened r =>
    match r with
    | ReadOutcome.readErr m => Except.error (GoErr.msg m)
    | ReadOutcome.bytes c =>
      match c with
      | JsonContent.malformed m => Except.error (GoErr.parseErr m)
      | JsonContent.parsed ecp =>
        if ecp = "" then Except.error GoErr.configUnavailable
        else if goStringsContains ecp "~" || goStringsContains ecp "HOME" then
          match userHomeDir with
          | none => Except.error GoErr.configUnavailable
          | some home =>
            let p1 := if goStringsContains ecp "~" then
                home ++ goTrimLeft ecp ['~']
              else ecp
            let p2 := if goStringsContains p1 "HOME" then
                home ++ goTrimLeft p1 ['H', 'O', 'M', 'E']
              else p1
            Except.ok p2
        else Except.ok ecp

/-- The process environment consulted by the default-config-path helpers of
src/unnamed/part_002: runtime.GOOS, the APPDATA and HOME variables (empty
string meaning unset, as with os.Getenv), and the home directory reported by
user.Current (none meaning the call failed). -/
structure PathEnv where
  goos : String
  envAPPDATA : String
  envHOME : String
  userCurrentHome : Option String
deriving DecidableEq

/-- filepath.Join restricted to the already-clean inputs these helpers build:
empty elements are dropped and the rest are joined with a slash (the Clean
normalization and the Windows separator are abstracted away, since no claim
inspects them). -/
def filepathJoin (a b : String) : String :=
  if a = "" then b else if b = "" then a else a ++ "/" ++ b

/-- guessHomeDir from src/unnamed/part_002: prefer the HOME variable, then the
user.Current home directory, then the empty string. -/
def guessHomeDir (env : PathEnv) : String :=
  if env.envHOME ≠ "" then env.envHOME
  else
    match env.userCurrentHome with
    | some h => h
    | none => ""

/-- getDefaultConfigFileDirectory from src/unnamed/part_002: the gcloud
directory under APPDATA on Windows, under the home .config directory
elsewhere. -/
def getDefaultConfigFileDirectory (env : PathEnv) : String :=
  if env.goos = "windows" then filepathJoin env.envAPPDATA "gcloud"
  else filepathJoin (guessHomeDir env) ".config/gcloud"

/-- The well-known config file name from src/unnamed/part_002. -/
def configFileName : String := "certificate_config.json"

/-- GetDefaultConfigFilePath from src/unnamed/part_002 lines 133-135. -/
def GetDefaultConfigFilePath (env : PathEnv) : String :=
  filepathJoin (getDefaultConfigFileDirectory env) configFileName

/-- Modelled from the spec: the config-path resolution step of client.Cred.
The current client.go of the client package is not under src (only its tests
and its util package are), so this follows the spec sentence: the explicit
argument takes precedence; if empty, fall back to the environment-variable
override GOOGLE_API_CERTIFICATE_CONFIG (envConfig, empty meaning unset); if
that is also unset, fall back to the platform default location. -/
def credConfigFilePath (arg : String) (envConfig : String) (env : PathEnv) : String :=
  if arg ≠ "" then arg
  else if envConfig ≠ "" then envConfig
  else GetDefaultConfigFilePath env

/-- A sample environment for evaluating the path-resolution theorems. -/
def pathEnvExample : PathEnv :=
  { goos := "linux", envAPPDATA := "", envHOME := "/home/u", userCurrentHome := none }

/-- crypto.Hash identifiers used by the signers (none0 is the zero value,
crypto.Hash(0)). -/
inductive CryptoHash where
  | none0 : CryptoHash
  | SHA1 : CryptoHash
  | SHA224 : CryptoHash
  | SHA256 : CryptoHash
  | SHA384 : CryptoHash
  | SHA512 : CryptoHash
deriving DecidableEq

/-- crypto.Hash.Size in bytes. -/
def CryptoHash.size : CryptoHash → Nat
  | CryptoHash.none0 => 0
  | CryptoHash.SHA1 => 20
  | CryptoHash.SHA224 => 28
  | CryptoHash.SHA256 => 32
  | CryptoHash.SHA384 => 48
  | CryptoHash.SHA512 => 64

/-- crypto.SignerOpts values the signers gob-register: a bare crypto.Hash, or
an rsa.PSSOptions value carrying a salt length and a hash. -/
inductive SignerOpts where
  | hashOpts (h : CryptoHash) : SignerOpts
  | pssOpts (saltLength : Int) (h : CryptoHash) : SignerOpts
deriving DecidableEq

/-- SignerOpts.HashFunc. -/
def SignerOpts.hashFunc : SignerOpts → CryptoHash
  | SignerOpts.hashOpts h => h
  | SignerOpts.pssOpts _ h => h

/-- SignArgs of src/internal/signer/linux/signer.go lines 54-58: a digest and
an Opts interface value (none models a nil interface); the struct has no Hash
field. -/
structure SignArgsLinux where
  Digest : List Nat
  Opts : Option SignerOpts
deriving DecidableEq

/-- SignArgs as consumed by the Sign method of src/unnamed/part_011, which
reads both args.Opts and args.Hash; the wire format sent by the client of
src/unnamed/part_000 carries Digest, Hash and Opts. -/
structure SignArgsWin where
  Digest : List Nat
  Hash : CryptoHash
  Opts : Option SignerOpts
deriving DecidableEq

/-- EnterpriseCertSigner.Sign of src/internal/signer/linux/signer.go lines
105-108: the options handed to the provider key are args.Opts unchanged. -/
def linuxSignerSignOpts (args : SignArgsLinux) : Option SignerOpts :=
  args.Opts

/-- EnterpriseCertSigner.Sign of src/unnamed/part_011 lines 71-80: use
args.Opts when it is non-nil, otherwise fall back to args.Hash as the signer
options. -/
def winSignerSignOpts (args : SignArgsWin) : SignerOpts :=
  match args.Opts with
  | some o => o
  | none => SignerOpts.hashOpts args.Hash

/-- The digest-length mismatch message checked by the client tests. -/
def digestLenErrMsg (n m : Nat) : String :=
  "Digest length of " ++ toString n ++ " bytes does not match Hash function size of "
    ++ toString m ++ " bytes"

/-- Modelled from the spec: the digest-length validation performed on the
signer side of the Sign RPC (the code producing this message is not under
src; only the client tests that assert on the message are).  A digest whose
length differs from the declared hash size is rejected with an error naming
both the actual digest length and the expected hash size. -/
def signerDigestCheck (digest : List Nat) (h : CryptoHash) : Option GoErr :=
  if digest.length = CryptoHash.size h then none
  else some (GoErr.msg (digestLenErrMsg digest.length (CryptoHash.size h)))

/-- Modelled from the spec: the mock signer binary launched by the client
tests, which echoes its input digest back as the signature after the
signer-side digest-length check; with no options there is no declared hash to
check against, and the digest is echoed unconditionally. -/
def mockSignerSign (digest : List Nat) (opts : Option SignerOpts) :
    Except GoErr (List Nat) :=
  match opts with
  | some o =>
    match signerDigestCheck digest o.hashFunc with
    | some e => Except.error e
    | none => Except.ok digest
  | none => Except.ok digest

/-- Modelled from the spec: client Key.Sign of the current client package
(client.go is not under src; only its tests are).  The digest is opaque to
the client: Sign forwards the digest and options over the Sign RPC without
any local digest-length validation and returns whatever the remote signer
answers.  The older Sign of src/unnamed/part_000 lines 81-84 likewise
forwards without validation. -/
def keySign (rpcSign : List Nat → Option SignerOpts → Except GoErr (List Nat))
    (digest : List Nat) (opts : Option SignerOpts) : Except GoErr (List Nat) :=
  rpcSign digest opts

/-- The byte content of the string testDigest, the digest used by the client
tests (10 bytes long). -/
def testDigest : List Nat :=
  (String.toList "testDigest").map Char.toNat

/-- An X509 certificate held by the darwin keychain provider, reduced to the
public key it embeds plus the remainder of its DER body. -/
structure SignerCert where
  pubKeyVal : Nat
  body : List Nat
deriving DecidableEq

/-- The raw DER bytes of a certificate; the embedded public key heads the
encoding so that it is recoverable from the raw chain entry. -/
def SignerCert.raw (c : SignerCert) : List Nat :=
  c.pubKeyVal :: c.body

/-- Extract the public key embedded in a raw certificate. -/
def certEmbeddedPubKey (raw : List Nat) : Option Nat :=
  raw.head?

/-- The darwin keychain provider Key of
src/internal/signer/darwin/keychain/keychain.go, reduced to its certificate
list. -/
structure KeychainKey where
  certs : List SignerCert
deriving DecidableEq

/-- keychain Key.CertificateChain (keychain.go lines 185-191): the raw bytes
of every held certificate, in order. -/
def KeychainKey.certificateChain (k : KeychainKey) : List (List Nat) :=
  k.certs.map SignerCert.raw

/-- keychain Key.Public (keychain.go lines 205-207): the public key of the
first held certificate; none models the index panic on an empty list. -/
def KeychainKey.publicK (k : KeychainKey) : Option Nat :=
  (k.certs.head?).map SignerCert.pubKeyVal

/-- x509.MarshalPKIXPublicKey, abstracted to an injective DER encoding. -/
def marshalPKIXPublicKey (k : Nat) : List Nat := [k]

/-- x509.ParsePKIXPublicKey: inverts the encoding, failing on any other
byte string. -/
def parsePKIXPublicKey : List Nat → Except GoErr Nat
  | [k] => Except.ok k
  | _ => Except.error (GoErr.msg "asn1 structure error")

/-- The client Key of src/unnamed/part_000: the public key and certificate
chain fetched during Cred and stored for the life of the Key. -/
structure ClientKey where
  publicKey : Nat
  chain : List (List Nat)
deriving DecidableEq

/-- client Key.CertificateChain (part_000 lines 60-62): the stored chain. -/
def ClientKey.certificateChain (k : ClientKey) : List (List Nat) :=
  k.chain

/-- client Key.Public (part_000 lines 76-78): the stored public key. -/
def ClientKey.publicK (k : ClientKey) : Nat :=
  k.publicKey

/-- The RPC phase of client Cred (src/unnamed/part_000 lines 116-136) served
by the darwin signer handlers of src/unnamed/part_017 (CertificateChain
returns the provider chain; Public returns MarshalPKIXPublicKey of the
provider public key): fetch the chain, fetch the public key bytes, parse them
with ParsePKIXPublicKey, and store both values in the constructed Key. -/
def credFromSigner (s : KeychainKey) : Except GoErr ClientKey :=
  let chain := s.certificateChain
  match s.publicK with
  | none => Except.error (GoErr.msg "signer panic: index out of range")
  | some pk =>
    match parsePKIXPublicKey (marshalPKIXPublicKey pk) with
    | Except.error e =>
      Except.error (GoErr.wrap "parsing public key from enterprise cert signer" e)
    | Except.ok q => Except.ok { publicKey := q, chain := chain }

/-- A one-certificate keychain for evaluating the Cred theorems. -/
def sampleKeychain : KeychainKey :=
  { certs := [{ pubKeyVal := 5, body := [1, 2] }] }

/-- The parent-liveness watchdog loop of the signer main functions
(src/internal/signer/linux/signer.go lines 147-154 and the identical loops of
the windows and darwin signers): at each whole second t it reads os.Getppid;
if the parent pid is 1 it exits via log.Fatalln, otherwise it sleeps one
second and checks again, so consecutive checks are one second apart.  The
fuel argument bounds how many iterations are examined; the result is the
second at which the loop exits, when that happens within fuel checks. -/
def watchdogFirstExit (ppidAt : Nat → Nat) : Nat → Nat → Option Nat
  | 0, _ => none
  | fuel + 1, t =>
    if ppidAt t = 1 then some t else watchdogFirstExit ppidAt fuel (t + 1)

/-- The init function of src/utils/log_util.go: isEcpLogEnabled becomes true
exactly when the ENABLE_ENTERPRISE_CERTIFICATE_LOGS variable is non-empty
(os.Getenv yields the empty string both for unset and for empty). -/
def logUtilInit (envVal : String) : Bool :=
  envVal != ""

/-- The observable outcome of a logging call: what it wrote, and whether it
terminated the process. -/
structure FatalOutcome where
  output : Option String
  exited : Bool
deriving DecidableEq

/-- utils.Fatalf of src/utils/log_util.go lines 62-67: when enabled,
stdLogger.Fatalf writes the FATAL-tagged message and exits the process; when
disabled the body is skipped entirely, so the call returns with no output and
no exit. -/
def utilsFatalf (isEcpLogEnabled : Bool) (formatted : String) : FatalOutcome :=
  if isEcpLogEnabled then
    { output := some ("[FATAL] " ++ formatted), exited := true }
  else { output := none, exited := false }

/-- utils.Fatalln of src/utils/log_util.go lines 70-76, analogously. -/
def utilsFatalln (isEcpLogEnabled : Bool) (line : String) : FatalOutcome :=
  if isEcpLogEnabled then
    { output := some ("[FATAL] " ++ line), exited := true }
  else { output := none, exited := false }

/-- C1 counterexample: when closing the RPC connection fails, Key.Close of
src/unnamed/part_000 returns at once — the kill and wait steps are never
attempted, refuting the claim that all three cleanup steps are attempted even
if an earlier step fails. -/
theorem keyClose_stops_at_first_failure :
    keyClose { clientCloseErr := some (GoErr.msg "broken pipe"),
               processKillErr := none, cmdWaitErr := none }
      = ([CloseStep.connClose],
         some (GoErr.wrap "Closing RPC connection" (GoErr.msg "broken pipe"))) := rfl

/-- C1 (amended): Key.Close closes the RPC connection, then kills the signer
process, then waits for it, stopping at the first failure rather than
attempting later steps; a connection-close failure and a kill failure are
distinguished by their distinct wrappers, and the wait result is returned
directly when the first two steps succeed. -/
theorem keyClose_sequential_distinguished (e : GoErr) (kerr werr : Option GoErr) :
    keyClose { clientCloseErr := some e, processKillErr := kerr, cmdWaitErr := werr }
      = ([CloseStep.connClose], some (GoErr.wrap "Closing RPC connection" e))
  ∧ keyClose { clientCloseErr := none, processKillErr := some e, cmdWaitErr := werr }
      = ([CloseStep.connClose, CloseStep.procKill],
         some (GoErr.wrap "Killing signer process" e))
  ∧ keyClose { clientCloseErr := none, processKillErr := none, cmdWaitErr := werr }
      = ([CloseStep.connClose, CloseStep.procKill, CloseStep.procWait], werr) :=
  ⟨rfl, rfl, rfl⟩

/-- C2: LoadSignerBinaryPath returns the ErrConfigUnavailable sentinel (as
matched by errors.Is) both for a config path naming a nonexistent file and
for an existing config whose ECP binary-path field is empty, while a config
that exists but fails JSON parsing propagates the parse error as-is, which
does not match the sentinel. -/
theorem loadSignerBinaryPath_sentinel (hd : Option String) (m : String) :
    LoadSignerBinaryPath OpenOutcome.errNotExist hd
      = Except.error GoErr.configUnavailable
  ∧ LoadSignerBinaryPath (OpenOutcome.opened (ReadOutcome.bytes (JsonContent.parsed ""))) hd
      = Except.error GoErr.configUnavailable
  ∧ LoadSignerBinaryPath (OpenOutcome.opened (ReadOutcome.bytes (JsonContent.malformed m))) hd
      = Except.error (GoErr.parseErr m)
  ∧ goErrorsIs GoErr.configUnavailable GoErr.configUnavailable = true
  ∧ goErrorsIs (GoErr.parseErr m) GoErr.configUnavailable = false := by
  refine ⟨rfl, rfl, rfl, rfl, ?_⟩
  simp [goErrorsIs]

/-- C3: the effective config path used by Cred is the explicit argument when
non-empty; otherwise the GOOGLE_API_CERTIFICATE_CONFIG override when set;
otherwise the platform default config file location. -/
theorem credConfigFilePath_resolution (arg envConfig : String) (env : PathEnv) :
    (arg ≠ "" → credConfigFilePath arg envConfig env = arg)
  ∧ (arg = "" → envConfig ≠ "" → credConfigFilePath arg envConfig env = envConfig)
  ∧ (arg = "" → envConfig = "" →
      credConfigFilePath arg envConfig env = GetDefaultConfigFilePath env) := by
  refine ⟨fun h => ?_, fun h1 h2 => ?_, fun h1 h2 => ?_⟩
  · simp [credConfigFilePath, h]
  · simp [credConfigFilePath, h1, h2]
  · simp [credConfigFilePath, h1, h2]

/-- C3 witness: the three resolution branches evaluated at concrete paths. -/
theorem credConfigFilePath_resolution_witness :
    credConfigFilePath "explicit.json" "envpath.json" pathEnvExample = "explicit.json"
  ∧ credConfigFilePath "" "envpath.json" pathEnvExample = "envpath.json"
  ∧ credConfigFilePath "" "" pathEnvExample = GetDefaultConfigFilePath pathEnvExample :=
  ⟨(credConfigFilePath_resolution "explicit.json" "envpath.json" pathEnvExample).1
      (by decide),
   (credConfigFilePath_resolution "" "envpath.json" pathEnvExample).2.1 rfl (by decide),
   (credConfigFilePath_resolution "" "" pathEnvExample).2.2 rfl rfl⟩

/-- C4 counterexample: for a SignArgs with Opts absent, the Sign RPC of
src/internal/signer/linux/signer.go passes no signing options at all to the
provider — there is no Hash field to fall back to — refuting the claim that
every Signer Service falls back to a separate Hash field when Opts is
absent. -/
theorem linuxSigner_no_hash_fallback :
    linuxSignerSignOpts { Digest := [1, 2, 3], Opts := none } = none := rfl

/-- C4 (amended): the Sign RPC of the windows signer of src/unnamed/part_011
takes the signing options from Opts when present and falls back to the Hash
field when Opts is absent, while the linux signer of
src/internal/signer/linux/signer.go always passes the Opts field to the
provider unchanged, with no fallback. -/
theorem signerSignOpts_amended (d : List Nat) (h : CryptoHash) (o : SignerOpts)
    (args : SignArgsLinux) :
    winSignerSignOpts { Digest := d, Hash := h, Opts := some o } = o
  ∧ winSignerSignOpts { Digest := d, Hash := h, Opts := none } = SignerOpts.hashOpts h
  ∧ linuxSignerSignOpts args = args.Opts :=
  ⟨rfl, rfl, rfl⟩

/-- C5: Transport.Close invokes the Close of both underlying streams
unconditionally, and returns the read-side close error when present,
otherwise the write-side close error, returning nil exactly when both
succeed. -/
theorem transportClose_closes_both (e : GoErr) (rerr werr : Option GoErr) :
    (transportClose rerr werr).1 = [CloseSide.readSide, CloseSide.writeSide]
  ∧ (transportClose (some e) werr).2 = some e
  ∧ (transportClose none werr).2 = werr
  ∧ ((transportClose rerr werr).2 = none ↔ (rerr = none ∧ werr = none)) := by
  refine ⟨rfl, rfl, rfl, ?_⟩
  cases rerr <;> simp [transportClose]

/-- C6: client Key.Sign forwards every digest to the remote signer unchanged,
performing no digest-length validation itself, and when the digest length
differs from the declared hash size the remote signer answers with an error
whose message names both the actual digest length and the expected hash size;
at 10 digest bytes against SHA256 the message is exactly the one checked by
the client tests. -/
theorem keySign_digest_mismatch
    (rpc : List Nat → Option SignerOpts → Except GoErr (List Nat))
    (digest : List Nat) (h : CryptoHash)
    (hne : digest.length ≠ CryptoHash.size h) :
    keySign rpc digest (some (SignerOpts.hashOpts h))
      = rpc digest (some (SignerOpts.hashOpts h))
  ∧ keySign mockSignerSign digest (some (SignerOpts.hashOpts h))
      = Except.error (GoErr.msg (digestLenErrMsg digest.length (CryptoHash.size h)))
  ∧ digestLenErrMsg 10 32
      = "Digest length of 10 bytes does not match Hash function size of 32 bytes" := by
  refine ⟨rfl, ?_, by decide⟩
  simp [keySign, mockSignerSign, signerDigestCheck, SignerOpts.hashFunc, hne]

/-- C6 witness: the testDigest bytes are 10 long, mismatching the 32-byte
SHA256 size, and the Sign call surfaces the test message. -/
theorem keySign_digest_mismatch_witness :
    keySign mockSignerSign testDigest (some (SignerOpts.hashOpts CryptoHash.SHA256))
      = mockSignerSign testDigest (some (SignerOpts.hashOpts CryptoHash.SHA256))
  ∧ keySign mockSignerSign testDigest (some (SignerOpts.hashOpts CryptoHash.SHA256))
      = Except.error (GoErr.msg (digestLenErrMsg testDigest.length
          (CryptoHash.size CryptoHash.SHA256)))
  ∧ digestLenErrMsg 10 32
      = "Digest length of 10 bytes does not match Hash function size of 32 bytes" :=
  keySign_digest_mismatch mockSignerSign testDigest CryptoHash.SHA256 (by decide)

/-- C7: against the mock signer that echoes its input digest as the
signature, Sign with the 10-byte testDigest and a nil SignerOpts argument
returns the digest itself with no error. -/
theorem keySign_echo_testDigest :
    keySign mockSignerSign testDigest none = Except.ok testDigest := rfl

/-- C8: whenever the RPC phase of Cred succeeds against the darwin keychain
signer, the constructed Key holds a non-empty certificate chain whose first
entry embeds exactly the public key stored as Public, both fetched once at
construction. -/
theorem cred_public_matches_chain (s : KeychainKey) (k : ClientKey)
    (hk : credFromSigner s = Except.ok k) :
    k.certificateChain ≠ []
  ∧ k.certificateChain.head?.bind certEmbeddedPubKey = some k.publicK := by
  cases hcerts : s.certs with
  | nil =>
    rw [credFromSigner] at hk
    simp [KeychainKey.publicK, hcerts] at hk
  | cons c cs =>
    rw [credFromSigner] at hk
    simp [KeychainKey.publicK, KeychainKey.certificateChain, hcerts,
      marshalPKIXPublicKey, parsePKIXPublicKey] at hk
    subst hk
    simp [ClientKey.certificateChain, ClientKey.publicK, SignerCert.raw,
      certEmbeddedPubKey]

/-- C8 witness: a one-certificate keychain, for which Cred succeeds and the
invariant holds concretely. -/
theorem cred_public_matches_chain_witness :
    ({ publicKey := 5, chain := [[5, 1, 2]] } : ClientKey).certificateChain ≠ []
  ∧ ({ publicKey := 5, chain := [[5, 1, 2]] } : ClientKey).certificateChain.head?.bind
      certEmbeddedPubKey
      = some ({ publicKey := 5, chain := [[5, 1, 2]] } : ClientKey).publicK :=
  cred_public_matches_chain sampleKeychain { publicKey := 5, chain := [[5, 1, 2]] } rfl

/-- Helper for the watchdog: if the parent pid reads 1 at some second u within
the examined window, the loop exits at some second no later than u. -/
theorem watchdogFirstExit_finds (ppidAt : Nat → Nat) :
    ∀ (fuel t u : Nat), t ≤ u → u < t + fuel → ppidAt u = 1 →
      ∃ m, watchdogFirstExit ppidAt fuel t = some m ∧ m ≤ u := by
  intro fuel
  induction fuel with
  | zero => intro t u h1 h2 _; omega
  | succ n ih =>
    intro t u h1 h2 hu
    by_cases ht : ppidAt t = 1
    · exact ⟨t, by simp [watchdogFirstExit, ht], h1⟩
    · have h1' : t + 1 ≤ u := by
        rcases Nat.eq_or_lt_of_le h1 with he | hl
        · exact absurd (he ▸ hu) ht
        · omega
      obtain ⟨m, hm, hmu⟩ := ih (t + 1) u h1' (by omega) hu
      exact ⟨m, by simp [watchdogFirstExit, ht, hm], hmu⟩

/-- C9: the signer watchdog polls the parent pid once per second (the loop
advances its clock by exactly one second per check); if the signer has been
re-parented to init from second d onward — the parent died — the loop exits at
some check no later than second d, so the signer never keeps serving
indefinitely after its parent has died. -/
theorem watchdog_exits_after_parent_death (ppidAt : Nat → Nat) (d : Nat)
    (hdead : ∀ n, d ≤ n → ppidAt n = 1) :
    ∃ m, watchdogFirstExit ppidAt (d + 1) 0 = some m ∧ m ≤ d :=
  watchdogFirstExit_finds ppidAt (d + 1) 0 d (Nat.zero_le d) (by omega)
    (hdead d (Nat.le_refl d))

/-- C9 witness: a parent that dies at second 2 with the watchdog observing
ppid 77 before and 1 afterwards. -/
theorem watchdog_exits_after_parent_death_witness :
    ∃ m, watchdogFirstExit (fun n => if 2 ≤ n then 1 else 77) 3 0 = some m ∧ m ≤ 2 :=
  watchdog_exits_after_parent_death (fun n => if 2 ≤ n then 1 else 77) 2
    (fun _ h => if_pos h)

/-- C10: with ENABLE_ENTERPRISE_CERTIFICATE_LOGS unset, init leaves logging
disabled and utils.Fatalf and utils.Fatalln return normally, writing nothing
and not exiting; the exit side effect of both functions happens exactly when
the variable is non-empty, that is, when logging is enabled. -/
theorem utilsFatal_disabled_no_exit (envVal s : String) :
    logUtilInit "" = false
  ∧ utilsFatalf (logUtilInit "") s = { output := none, exited := false }
  ∧ utilsFatalln (logUtilInit "") s = { output := none, exited := false }
  ∧ (utilsFatalf (logUtilInit envVal) s).exited = (envVal != "")
  ∧ (utilsFatalln (logUtilInit envVal) s).exited = (envVal != "") := by
  refine ⟨rfl, rfl, rfl, ?_, ?_⟩ <;>
    · cases hb : envVal != "" <;> simp [logUtilInit, utilsFatalf, utilsFatalln, hb]

end ECP
